import Mathlib

set_option maxRecDepth 4096

/-!
Verification of the model-gateway backend (`src/main.py`).

The development shallowly embeds the Python source: JSON/Python values are an
inductive `Json`, the dynamic Python operations used by the source
(`dict.get`, indexing, iteration, `in`, truthiness, `str.join`, `str(...)`,
`or`) are explicit partial operations returning `Except`, the outcome of
`requests.post` and `os.getenv` is an explicit `World`, and each function of
the source becomes a Lean definition of the same name.
-/

/-- Characters that are awkward to write literally are named. -/
def squote : Char := Char.ofNat 39

def dquote : Char := Char.ofNat 34

def lbrace : Char := Char.ofNat 123

def rbrace : Char := Char.ofNat 125

/-- A parsed JSON value, which is also how the Python objects produced by
`json` deserialization are modelled: `null` is Python `None`, `obj` is a
`dict` with string keys in insertion order (unique keys), `num` covers the
integer numerals the gateway's payloads use. -/
inductive Json where
  | null : Json
  | bool (b : Bool) : Json
  | num (n : Int) : Json
  | str (s : String) : Json
  | arr (xs : List Json) : Json
  | obj (kvs : List (String × Json)) : Json

/-- Python truthiness of a value: `None`, `False`, `0`, `""`, `[]`, and an
empty dict are falsy, everything else is truthy. -/
def Json.truthy : Json → Bool
  | .null => false
  | .bool b => b
  | .num n => n != 0
  | .str s => s != ""
  | .arr xs => !xs.isEmpty
  | .obj kvs => !kvs.isEmpty

def Json.isStr : Json → Bool
  | .str _ => true
  | _ => false

def Json.asString : Json → Option String
  | .str s => some s
  | _ => none

/-- Python `x.get(k)` with no default: defined only on dicts (any other
receiver raises `AttributeError`); a missing key yields `None`, which is the
same value a JSON `null` deserializes to. -/
def pyGet (j : Json) (k : String) : Except Unit Json :=
  match j with
  | .obj kvs => .ok ((kvs.lookup k).getD .null)
  | _ => .error ()

/-- Python `x.get(k, d)`: defined only on dicts, yields `d` when `k` is
absent. -/
def pyGetD (j : Json) (k : String) (d : Json) : Except Unit Json :=
  match j with
  | .obj kvs => .ok ((kvs.lookup k).getD d)
  | _ => .error ()

/-- Python `x[0]`: first element of a list (`IndexError` when empty), first
character of a string (`IndexError` when empty), `KeyError` on a
string-keyed dict, `TypeError` otherwise. -/
def pyIndex0 : Json → Except Unit Json
  | .arr (x :: _) => .ok x
  | .arr [] => .error ()
  | .str s =>
    match s.data with
    | c :: _ => .ok (.str (String.mk [c]))
    | [] => .error ()
  | _ => .error ()

/-- Python iteration `for p in x`: the elements of a list, the one-character
strings of a string, the keys of a dict; `TypeError` otherwise. -/
def pyIter : Json → Except Unit (List Json)
  | .arr xs => .ok xs
  | .str s => .ok (s.data.map (fun c => .str (String.mk [c])))
  | .obj kvs => .ok (kvs.map (fun kv => .str kv.1))
  | _ => .error ()

def listHasInfix (needle : List Char) : List Char → Bool
  | [] => needle.isEmpty
  | c :: rest => needle.isPrefixOf (c :: rest) || listHasInfix needle rest

/-- Python `"text" in p`: key membership for a dict, substring test for a
string, element equality for a list; `TypeError` otherwise.  Equality of the
string `"text"` with a non-string list element is `False`. -/
def pyInText (p : Json) : Except Unit Bool :=
  match p with
  | .obj kvs => .ok (kvs.any (fun kv => kv.1 == "text"))
  | .str s => .ok (listHasInfix "text".data s.data)
  | .arr xs =>
    .ok (xs.any (fun x =>
      match x with
      | .str s => s == "text"
      | _ => false))
  | _ => .error ()

/-- Python `"\n".join ts`: every element must be a string (`TypeError`
otherwise). -/
def pyJoinNL (ts : List Json) : Except Unit String :=
  if ts.all Json.isStr then .ok (String.intercalate "\n" (ts.filterMap Json.asString))
  else .error ()

/-- Python string slicing `s[:n]`, character-based. -/
def pyStrSlice (s : String) (n : Nat) : String := String.mk (s.data.take n)

def pyEscapeChar (q : Char) (c : Char) : String :=
  if c = '\\' then String.mk ['\\', '\\']
  else if c = q then String.mk ['\\', q]
  else if c = '\n' then String.mk ['\\', 'n']
  else if c = Char.ofNat 13 then String.mk ['\\', 'r']
  else if c = Char.ofNat 9 then String.mk ['\\', 't']
  else String.mk [c]

/-- Python `repr` of a string restricted to the printable characters plus
newline, tab and carriage return (the only characters the gateway's payloads
contain): single-quoted, double-quoted only when the string has a single
quote and no double quote. -/
def pyReprStr (s : String) : String :=
  let q := if s.data.contains squote && !(s.data.contains dquote) then dquote else squote
  String.mk [q] ++ String.join (s.data.map (pyEscapeChar q)) ++ String.mk [q]

mutual

/-- Python `str(...)` of a deserialized JSON value, as used by
`str(data)[:500]` in the source: `repr` of nested strings, `None`, `True`,
`False`, dicts rendered with braces and `": "`, lists with `", "`. -/
def pyStr : Json → String
  | .null => "None"
  | .bool true => "True"
  | .bool false => "False"
  | .num n => toString n
  | .str s => pyReprStr s
  | .arr xs => "[" ++ String.intercalate ", " (pyStrList xs) ++ "]"
  | .obj kvs => String.mk [lbrace] ++ String.intercalate ", " (pyStrKVs kvs) ++ String.mk [rbrace]

def pyStrList : List Json → List String
  | [] => []
  | x :: xs => pyStr x :: pyStrList xs

def pyStrKVs : List (String × Json) → List String
  | [] => []
  | kv :: kvs => (pyReprStr kv.1 ++ ": " ++ pyStr kv.2) :: pyStrKVs kvs

end

/-! Model of `json` deserialization (`resp.json()` in the source), covering
the JSON subset the provider contract uses: objects, arrays, strings with the
single-character escapes, integer numerals, `true`/`false`/`null`.  Inputs
outside the subset (floats, exponents, `\u` escapes) are rejected, as is any
non-JSON body — deserialization of such a body raises in the source. -/

def jsonWs (c : Char) : Bool :=
  c = ' ' || c = '\n' || c = Char.ofNat 9 || c = Char.ofNat 13

def parseStringChars : List Char → Except Unit (List Char × List Char)
  | [] => .error ()
  | c :: rest =>
    if c = dquote then .ok ([], rest)
    else if c = '\\' then
      match rest with
      | [] => .error ()
      | e :: rest2 =>
        let dec : Except Unit Char :=
          if e = dquote then .ok dquote
          else if e = '\\' then .ok '\\'
          else if e = '/' then .ok '/'
          else if e = 'n' then .ok '\n'
          else if e = 't' then .ok (Char.ofNat 9)
          else if e = 'r' then .ok (Char.ofNat 13)
          else if e = 'b' then .ok (Char.ofNat 8)
          else if e = 'f' then .ok (Char.ofNat 12)
          else .error ()
        match dec with
        | .error _ => .error ()
        | .ok d =>
          match parseStringChars rest2 with
          | .ok (acc, rem) => .ok (d :: acc, rem)
          | .error _ => .error ()
    else
      match parseStringChars rest with
      | .ok (acc, rem) => .ok (c :: acc, rem)
      | .error _ => .error ()

def digitsToNat (ds : List Char) : Nat :=
  ds.foldl (fun a c => a * 10 + (c.toNat - 48)) 0

/-- Insertion into a Python dict: an existing key keeps its position and gets
the new value, a new key is appended. -/
def objInsert (kvs : List (String × Json)) (k : String) (v : Json) : List (String × Json) :=
  if kvs.any (fun kv => kv.1 == k) then
    kvs.map (fun kv => if kv.1 == k then (k, v) else kv)
  else kvs ++ [(k, v)]

mutual

def parseValue (fuel : Nat) (cs : List Char) : Except Unit (Json × List Char) :=
  match fuel with
  | 0 => .error ()
  | f + 1 =>
    match cs.dropWhile jsonWs with
    | [] => .error ()
    | c :: rest =>
      if c = dquote then
        match parseStringChars rest with
        | .ok (sc, rem) => .ok (.str (String.mk sc), rem)
        | .error _ => .error ()
      else if c = lbrace then
        match rest.dropWhile jsonWs with
        | [] => .error ()
        | c2 :: rest2 =>
          if c2 = rbrace then .ok (.obj [], rest2)
          else parseObjItems f (c2 :: rest2) []
      else if c = '[' then
        match rest.dropWhile jsonWs with
        | [] => .error ()
        | c2 :: rest2 =>
          if c2 = ']' then .ok (.arr [], rest2)
          else parseArrItems f (c2 :: rest2) []
      else if "null".data.isPrefixOf (c :: rest) then .ok (.null, (c :: rest).drop 4)
      else if "true".data.isPrefixOf (c :: rest) then .ok (.bool true, (c :: rest).drop 4)
      else if "false".data.isPrefixOf (c :: rest) then .ok (.bool false, (c :: rest).drop 5)
      else if c = '-' || c.isDigit then
        let ds0 := if c = '-' then rest else c :: rest
        let ds := ds0.takeWhile Char.isDigit
        let rem := ds0.dropWhile Char.isDigit
        if ds.isEmpty then .error ()
        else
          let n : Int := if c = '-' then -(digitsToNat ds : Int) else (digitsToNat ds : Int)
          match rem with
          | [] => .ok (.num n, [])
          | r1 :: _ =>
            if r1 = '.' || r1 = 'e' || r1 = 'E' then .error ()
            else .ok (.num n, rem)
      else .error ()

def parseArrItems (fuel : Nat) (cs : List Char) (acc : List Json) : Except Unit (Json × List Char) :=
  match fuel with
  | 0 => .error ()
  | f + 1 =>
    match parseValue f cs with
    | .error _ => .error ()
    | .ok (v, rem) =>
      match rem.dropWhile jsonWs with
      | [] => .error ()
      | c :: rest =>
        if c = ',' then parseArrItems f rest (acc ++ [v])
        else if c = ']' then .ok (.arr (acc ++ [v]), rest)
        else .error ()

def parseObjItems (fuel : Nat) (cs : List Char) (acc : List (String × Json)) : Except Unit (Json × List Char) :=
  match fuel with
  | 0 => .error ()
  | f + 1 =>
    match cs.dropWhile jsonWs with
    | [] => .error ()
    | c :: rest =>
      if c = dquote then
        match parseStringChars rest with
        | .error _ => .error ()
        | .ok (kc, rem) =>
          match rem.dropWhile jsonWs with
          | [] => .error ()
          | c2 :: rest2 =>
            if c2 = ':' then
              match parseValue f rest2 with
              | .error _ => .error ()
              | .ok (v, rem2) =>
                let acc2 := objInsert acc (String.mk kc) v
                match rem2.dropWhile jsonWs with
                | [] => .error ()
                | c3 :: rest3 =>
                  if c3 = ',' then parseObjItems f rest3 acc2
                  else if c3 = rbrace then .ok (.obj acc2, rest3)
                  else .error ()
            else .error ()
      else .error ()

end

/-- Model of Python `json` deserialization of a whole document, the behavior
of `resp.json()`: trailing whitespace is allowed, anything else trailing (or
any parse failure) raises `JSONDecodeError`. -/
def pyJsonLoads (s : String) : Except Unit Json :=
  match parseValue (s.length + 1) s.data with
  | .ok (v, rem) => if (rem.dropWhile jsonWs).isEmpty then .ok v else .error ()
  | .error _ => .error ()

/-! Model of the environment and of the single outbound HTTP call. -/

/-- A `fastapi.HTTPException` as raised by the source: a status code and a
detail string. -/
structure HTTPException where
  status_code : Nat
  detail : String
deriving DecidableEq

/-- An exception escaping a request handler: either a deliberate
`HTTPException`, or the `JSONDecodeError` that `resp.json()` raises on a body
that is not valid JSON (uncaught by the source). -/
inductive PyError where
  | http (e : HTTPException) : PyError
  | jsonDecode : PyError
deriving DecidableEq

/-- A `requests.Response`: the status code and the raw body text.
`resp.json()` is modelled by `pyJsonLoads resp.text`. -/
structure HttpResponse where
  status_code : Nat
  text : String
deriving DecidableEq

/-- The ambient effects one request observes: `os.getenv`, and the outcome of
the single `requests.post` the source can make — either a response or a
raised exception whose message is `post = .error msg`. -/
structure World where
  env : String → Option String
  post : Except String HttpResponse

/-- Python `a or b` over optional strings (`os.getenv` results): the first
operand wins when it is a non-`None`, non-empty string. -/
def pyOrOpt (a b : Option String) : Option String :=
  match a with
  | some s => if s = "" then b else some s
  | none => b

/-- Python `a or d` where `a` is an optional string and `d` a string
default. -/
def pyOrOptStr (a : Option String) (d : String) : String :=
  match a with
  | some s => if s = "" then d else s
  | none => d

/-- Truthiness of Python `Optional[str]` (the `if query:` test). -/
def pyTruthyOpt (a : Option String) : Bool :=
  match a with
  | some s => s != ""
  | none => false

/-! Model of `base64.b64encode(...).decode("utf-8")` over a byte list. -/

def base64Alphabet : List Char :=
  "ABCDEFGHIJKLMNOPQRSTUVWXYZabcdefghijklmnopqrstuvwxyz0123456789+/".data

def b64char (i : Nat) : Char := base64Alphabet.getD i '?'

def b64encode : List Nat → String
  | [] => ""
  | [b0] =>
    String.mk [b64char (b0 / 4), b64char (b0 % 4 * 16), '=', '=']
  | [b0, b1] =>
    String.mk [b64char (b0 / 4), b64char (b0 % 4 * 16 + b1 / 16), b64char (b1 % 16 * 4), '=']
  | b0 :: b1 :: b2 :: rest =>
    String.mk [b64char (b0 / 4), b64char (b0 % 4 * 16 + b1 / 16),
      b64char (b1 % 16 * 4 + b2 / 64), b64char (b2 % 64)] ++ b64encode rest

/-! The source functions of `src/main.py`. -/

/-- A part of a provider message: `{"text": ...}` or
`{"inline_data": {"mime_type": ..., "data": ...}}`. -/
inductive MsgPart where
  | text (s : String) : MsgPart
  | inline_data (mime_type : String) (data : String) : MsgPart
deriving DecidableEq

/-- One `{"role": ..., "parts": [...]}` entry of the `contents` payload. -/
structure Content where
  role : String
  parts : List MsgPart
deriving DecidableEq

def partToJson : MsgPart → Json
  | .text s => .obj [("text", .str s)]
  | .inline_data m d => .obj [("inline_data", .obj [("mime_type", .str m), ("data", .str d)])]

def contentToJson (c : Content) : Json :=
  .obj [("role", .str c.role), ("parts", .arr (c.parts.map partToJson))]

/-- The request body of `TextRequest` (pydantic model): `query` required,
`system_instruction` optional, defaulting to `None`. -/
structure TextRequest where
  query : String
  system_instruction : Option String
deriving DecidableEq

/-- Source `_gemini_api_key`: `os.getenv("GEMINI_API_KEY") or
os.getenv("GOOGLE_API_KEY")`, HTTP 500 when the result is falsy. -/
def _gemini_api_key (env : String → Option String) : Except PyError String :=
  match pyOrOpt (env "GEMINI_API_KEY") (env "GOOGLE_API_KEY") with
  | some k =>
    if k = "" then .error (.http ⟨500, "GEMINI_API_KEY not configured on server"⟩)
    else .ok k
  | none => .error (.http ⟨500, "GEMINI_API_KEY not configured on server"⟩)

/-- The comprehension `[p.get("text", "") for p in parts if "text" in p]`:
elements are processed left to right, the filter before the element
expression, and any exception aborts the whole comprehension. -/
def textsComprehension : List Json → Except Unit (List Json)
  | [] => .ok []
  | p :: rest => do
    let b ← pyInText p
    if b then
      let v ← pyGetD p "text" (Json.str "")
      let vs ← textsComprehension rest
      pure (v :: vs)
    else textsComprehension rest

/-- The `try:` block of `_gemini_generate` lines 50-61, in the `Except`
monad: any `.error ()` is an exception reaching the `except:` handler.  The
final value is the Python value returned (a string on every path except the
`data.get("text")` fallback, which returns whatever truthy value sits in the
top-level `"text"` field). -/
def geminiTryExtract (data : Json) : Except Unit Json := do
  let c0 ← pyGet data "candidates"
  let candidates := if c0.truthy then c0 else Json.arr []
  let first ← pyIndex0 candidates
  let content ← pyGetD first "content" (Json.obj [])
  let parts ← pyGetD content "parts" (Json.arr [])
  let items ← pyIter parts
  let texts ← textsComprehension items
  let joined ← pyJoinNL (texts.filter Json.truthy)
  let t1 : Json := Json.str joined
  let t2 ←
    if t1.truthy then pure t1
    else do
      let tv ← pyGet data "text"
      pure (if tv.truthy then tv else Json.str "")
  pure (if t2.truthy then t2 else Json.str "No response text returned from model.")

/-- The response-unwrapping of `_gemini_generate` lines 49-63: the `try:`
block with its catch-all `except:` returning the best-effort string. -/
def geminiExtract (data : Json) : Json :=
  match geminiTryExtract data with
  | .ok t => t
  | .error _ => .str ("Unable to parse model response. Raw: " ++ pyStrSlice (pyStr data) 500)

/-- Source `_gemini_generate`: resolve the key, make the single POST, map
transport failure to HTTP 502, non-200 status to an `HTTPException` carrying
the provider status and the truncated body, and otherwise deserialize the
body and unwrap it.  The second component counts outbound provider calls
made. -/
def _gemini_generate (w : World) (contents : List Content) : Except PyError Json × Nat :=
  match _gemini_api_key w.env with
  | .error e => (.error e, 0)
  | .ok api_key =>
    let _url := "https://generativelanguage.googleapis.com/v1beta/models/gemini-1.5-flash:generateContent?key=" ++ api_key
    let _payload := Json.obj [("contents", .arr (contents.map contentToJson))]
    match w.post with
    | .error e => (.error (.http ⟨502, "Error contacting Gemini: " ++ e⟩), 1)
    | .ok resp =>
      if resp.status_code ≠ 200 then
        (.error (.http ⟨resp.status_code, "Gemini API error: " ++ pyStrSlice resp.text 500⟩), 1)
      else
        match pyJsonLoads resp.text with
        | .error _ => (.error .jsonDecode, 1)
        | .ok data => (.ok (geminiExtract data), 1)

def defaultTextInstruction : String :=
  "You are a helpful math tutor. Solve the problem step-by-step. Show clear reasoning, intermediate steps, and final answer."

/-- The `contents` list built by `solve_text`. -/
def solve_text_contents (body : TextRequest) : List Content :=
  let user_instruction := pyOrOptStr body.system_instruction defaultTextInstruction
  [⟨"user", [.text user_instruction, .text "Problem:", .text body.query]⟩]

/-- Source `solve_text` handler: build the contents, call the provider, wrap
the answer as `{"answer": ...}`. -/
def solve_text (w : World) (body : TextRequest) : Except PyError Json × Nat :=
  match _gemini_generate w (solve_text_contents body) with
  | (.ok answer, n) => (.ok (Json.obj [("answer", answer)]), n)
  | (.error e, n) => (.error e, n)

def imageInstruction : String :=
  "You are a helpful math tutor. Read the problem from the image and solve it step-by-step. If the image is unclear, state assumptions."

/-- The `contents` list built by `solve_image` once the payload is known to
be non-empty: mime type defaulted through Python `or`, bytes base64-encoded,
and two extra text parts only when `query` is truthy. -/
def solve_image_contents (data : List Nat) (content_type : Option String) (query : Option String) : List Content :=
  let mime := pyOrOptStr content_type "image/png"
  let b64 := b64encode data
  let parts :=
    [MsgPart.text imageInstruction, MsgPart.inline_data mime b64] ++
      (match query with
       | some s => if s ≠ "" then [MsgPart.text "Additional context:", MsgPart.text s] else []
       | none => [])
  [⟨"user", parts⟩]

/-- Source `solve_image` handler: the uploaded bytes and declared content
type stand for the already-read `UploadFile`; an empty payload raises HTTP
400 before any provider work. -/
def solve_image (w : World) (data : List Nat) (content_type : Option String) (query : Option String) : Except PyError Json × Nat :=
  if data.isEmpty then (.error (.http ⟨400, "Empty image upload"⟩), 0)
  else
    match _gemini_generate w (solve_image_contents data content_type query) with
    | (.ok answer, n) => (.ok (Json.obj [("answer", answer)]), n)
    | (.error e, n) => (.error e, n)

/-! Spec-side vocabulary: the well-formed response shape the specification's
extraction algorithm speaks about, and that algorithm itself, stated
independently of the source's exception-driven control flow. -/

/-- A part is well-shaped when it is an object whose `"text"` field, if any,
is a string. -/
def partTextOK (p : Json) : Bool :=
  match p with
  | .obj pkvs =>
    match pkvs.lookup "text" with
    | some (.str _) => true
    | some _ => false
    | none => true
  | _ => false

def partsTextOK (ps : List Json) : Bool := ps.all partTextOK

/-- The `"text"` field of a part, when the part is an object carrying a
string there. -/
def partTextField (p : Json) : Option String :=
  match p with
  | .obj pkvs =>
    match pkvs.lookup "text" with
    | some (.str s) => some s
    | _ => none
  | _ => none

/-- Spec step 1: collect every part's `text` field, skipping parts lacking
one. -/
def collectTexts (ps : List Json) : List String := ps.filterMap partTextField

/-- The top-level `"text"` field of the response object, if any, must be a
string (or absent) for the spec's fallback to be about text. -/
def topTextOK (kvs : List (String × Json)) : Bool :=
  match kvs.lookup "text" with
  | none => true
  | some (.str _) => true
  | some _ => false

def topText (kvs : List (String × Json)) : String :=
  match kvs.lookup "text" with
  | some (.str s) => s
  | _ => ""

/-- The extraction algorithm exactly as the specification words it: join the
non-empty part texts with newlines; if empty fall back to the top-level
`text` field; if still empty return the literal fallback sentence. -/
def specExtract (kvs : List (String × Json)) (ps : List Json) : String :=
  let joined := String.intercalate "\n" ((collectTexts ps).filter (fun s => s != ""))
  if joined != "" then joined
  else if topText kvs != "" then topText kvs
  else "No response text returned from model."

/-! Shared lemmas about the embedded operations. -/

theorem lookup_isSome_eq_any (k : String) (kvs : List (String × Json)) :
    (kvs.lookup k).isSome = kvs.any (fun kv => kv.1 == k) := by
  induction kvs with
  | nil => rfl
  | cons kv rest ih =>
    simp only [List.lookup, List.any_cons]
    by_cases h : k = kv.1
    · simp [h]
    · have hb : (k == kv.1) = false := by simpa using h
      have hb2 : (kv.1 == k) = false := by simpa using fun e => h e.symm
      simp [hb, hb2, ih]

theorem except_bind_ok {α β ε : Type} (a : α) (f : α → Except ε β) :
    (Except.ok a : Except ε α) >>= f = f a := rfl

theorem except_pure {α ε : Type} (a : α) : (pure a : Except ε α) = Except.ok a := rfl

theorem except_bind_error {α β ε : Type} (e : ε) (f : α → Except ε β) :
    (Except.error e : Except ε α) >>= f = Except.error e := rfl

/-- The comprehension over well-shaped parts never raises and produces
exactly the collected text fields. -/
theorem textsComprehension_ok (ps : List Json) (hps : partsTextOK ps = true) :
    textsComprehension ps = .ok ((collectTexts ps).map Json.str) := by
  induction ps with
  | nil => rfl
  | cons p rest ih =>
    simp only [partsTextOK, List.all_cons, Bool.and_eq_true] at hps
    obtain ⟨hp, hrest⟩ := hps
    have ihr := ih hrest
    match hq : p with
    | .obj pkvs =>
      simp only [partTextOK] at hp
      simp only [textsComprehension, pyInText, pyGetD, collectTexts, List.filterMap_cons,
        partTextField, except_bind_ok]
      have hany := lookup_isSome_eq_any "text" pkvs
      cases hl : pkvs.lookup "text" with
      | none =>
        have hfalse : pkvs.any (fun kv => kv.1 == "text") = false := by
          rw [← hany, hl]; rfl
        simp only [hfalse, Bool.false_eq_true, reduceIte]
        simpa [collectTexts] using ihr
      | some v =>
        have hsome : pkvs.any (fun kv => kv.1 == "text") = true := by
          rw [← hany, hl]; rfl
        cases v with
        | str s =>
          simp only [hsome, reduceIte, hl, Option.getD_some, except_bind_ok, ihr,
            except_bind_ok]
          rfl
        | null => rw [hl] at hp; simp at hp
        | bool b => rw [hl] at hp; simp at hp
        | num n => rw [hl] at hp; simp at hp
        | arr xs => rw [hl] at hp; simp at hp
        | obj kvs2 => rw [hl] at hp; simp at hp
    | .null | .bool _ | .num _ | .str _ | .arr _ =>
      simp [partTextOK] at hp

theorem filterMap_asString_map_str (l : List String) :
    (l.map Json.str).filterMap Json.asString = l := by
  induction l with
  | nil => rfl
  | cons s rest ih => simp [Json.asString, ih]

theorem all_isStr_map_str (l : List String) :
    (l.map Json.str).all Json.isStr = true := by
  induction l with
  | nil => rfl
  | cons s rest ih => simp [Json.isStr, ih]

theorem filterMap_asString_comp (l : List String) :
    List.filterMap (Json.asString ∘ Json.str) l = l := by
  induction l with
  | nil => rfl
  | cons s rest ih => simp [Json.asString, ih]

/-- Joining a list of genuine strings never raises. -/
theorem pyJoinNL_map_str (l : List String) :
    pyJoinNL (l.map Json.str) = .ok (String.intercalate "\n" l) := by
  simp [pyJoinNL, all_isStr_map_str, filterMap_asString_map_str, filterMap_asString_comp]

/-- Truthiness filtering over string values is non-emptiness filtering. -/
theorem filter_truthy_map_str (l : List String) :
    (l.map Json.str).filter Json.truthy = (l.filter (fun s => s != "")).map Json.str := by
  induction l with
  | nil => rfl
  | cons s rest ih =>
    simp only [List.map_cons, List.filter_cons, Json.truthy]
    by_cases h : s != ""
    · simp [h, ih]
    · simp [h, ih]

/-- The outbound-call count of the provider routine is one exactly when the
credential resolves, zero otherwise. -/
theorem gemini_generate_calls (w : World) (contents : List Content) :
    (_gemini_generate w contents).2 =
      (match _gemini_api_key w.env with
       | .ok _ => 1
       | .error _ => 0) := by
  unfold _gemini_generate
  cases _gemini_api_key w.env with
  | error e => rfl
  | ok k =>
    cases w.post with
    | error e => rfl
    | ok r =>
      by_cases h : r.status_code = 200
      · simp only [h]
        cases pyJsonLoads r.text <;> simp
      · simp only []
        cases hd : decide (r.status_code ≠ 200) <;> simp_all

/-- A non-empty upload proceeds to the provider call and wraps its answer. -/
theorem solve_image_delegates (w : World) (data : List Nat) (ct q : Option String)
    (hd : data ≠ []) :
    solve_image w data ct q =
      (match _gemini_generate w (solve_image_contents data ct q) with
       | (.ok answer, n) => (.ok (Json.obj [("answer", answer)]), n)
       | (.error e, n) => (.error e, n)) := by
  unfold solve_image
  simp [List.isEmpty_iff, hd]

/-- An absent-or-empty pair of credential variables makes the key resolver
raise HTTP 500 before anything else. -/
theorem gemini_api_key_absent (env : String → Option String)
    (h1 : env "GEMINI_API_KEY" = none ∨ env "GEMINI_API_KEY" = some "")
    (h2 : env "GOOGLE_API_KEY" = none ∨ env "GOOGLE_API_KEY" = some "") :
    _gemini_api_key env = .error (.http ⟨500, "GEMINI_API_KEY not configured on server"⟩) := by
  unfold _gemini_api_key pyOrOpt
  rcases h1 with h1 | h1 <;> rcases h2 with h2 | h2 <;> simp [h1, h2]

/-- On a resolved key, a delivered response with status 200 and a JSON body,
the provider routine returns the unwrapped body and made one call. -/
theorem gemini_generate_ok (w : World) (contents : List Content) (k : String)
    (r : HttpResponse) (data : Json)
    (hk : _gemini_api_key w.env = .ok k) (hp : w.post = .ok r)
    (hs : r.status_code = 200) (hj : pyJsonLoads r.text = .ok data) :
    _gemini_generate w contents = (.ok (geminiExtract data), 1) := by
  unfold _gemini_generate
  simp [hk, hp, hs, hj]

theorem solve_text_calls (w : World) (body : TextRequest) :
    (solve_text w body).2 = (_gemini_generate w (solve_text_contents body)).2 := by
  unfold solve_text
  rcases h : _gemini_generate w (solve_text_contents body) with ⟨res, n⟩
  cases res <;> simp

theorem solve_image_calls (w : World) (data : List Nat) (ct q : Option String)
    (hd : data ≠ []) :
    (solve_image w data ct q).2 = (_gemini_generate w (solve_image_contents data ct q)).2 := by
  rw [solve_image_delegates w data ct q hd]
  rcases h : _gemini_generate w (solve_image_contents data ct q) with ⟨res, n⟩
  cases res <;> simp

/-! Claims. -/

/-- C3 counterexample: the claim predicts that a caller-supplied
`system_instruction` is always the first part, but supplying the empty
string makes the handler substitute the default instruction (Python `or`
treats `""` as absent), so the constructed message differs from the claimed
one. -/
theorem C3_counterexample :
    solve_text_contents ⟨"2+2", some ""⟩ ≠
      [⟨"user", [.text "", .text "Problem:", .text "2+2"]⟩] := by
  decide

/-- C3 (amended): for every input, `solve_text` constructs exactly one
provider message with role "user" and exactly three text parts in fixed
order — the caller-supplied `system_instruction` when it is present, non-null
and non-empty, otherwise the default tutoring instruction; then the literal
label "Problem:"; then the query verbatim. -/
theorem C3_message_shape (body : TextRequest) :
    solve_text_contents body =
      [⟨"user",
        [MsgPart.text
          (match body.system_instruction with
           | some s => if s = "" then defaultTextInstruction else s
           | none => defaultTextInstruction),
         MsgPart.text "Problem:", MsgPart.text body.query]⟩] := by
  rcases body with ⟨q, si⟩
  unfold solve_text_contents pyOrOptStr
  rcases si with _ | s
  · rfl
  · by_cases h : s = "" <;> simp [h]

/-- C4: a non-empty payload with a declared media type yields exactly one
"user" message whose parts are, with no query, the image-tutoring
instruction followed by the inline attachment (declared media type, base64
bytes); with a non-empty query, those two parts followed by the literal
label "Additional context:" and the query text. -/
theorem C4_image_message_shape (data : List Nat) (mt : String) (q : String)
    (hd : data ≠ []) (hmt : mt ≠ "") (hq : q ≠ "") :
    solve_image_contents data (some mt) none =
      [⟨"user", [.text imageInstruction, .inline_data mt (b64encode data)]⟩] ∧
    solve_image_contents data (some mt) (some q) =
      [⟨"user", [.text imageInstruction, .inline_data mt (b64encode data),
        .text "Additional context:", .text q]⟩] := by
  unfold solve_image_contents pyOrOptStr
  refine ⟨by simp [hmt], by simp [hmt, hq]⟩

/-- C4 witness: three bytes, media type "image/jpeg", query "help". -/
theorem C4_witness :
    solve_image_contents [1, 2, 3] (some "image/jpeg") none =
      [⟨"user", [.text imageInstruction, .inline_data "image/jpeg" "AQID"]⟩] ∧
    solve_image_contents [1, 2, 3] (some "image/jpeg") (some "help") =
      [⟨"user", [.text imageInstruction, .inline_data "image/jpeg" "AQID",
        .text "Additional context:", .text "help"]⟩] :=
  C4_image_message_shape [1, 2, 3] "image/jpeg" "help"
    (by decide) (by decide) (by decide)

/-- C5: an empty image payload makes `solve_image` raise HTTP 400 with
detail "Empty image upload" and perform zero outbound calls, for every
environment, query and declared content type. -/
theorem C5_empty_image (w : World) (ct : Option String) (q : Option String) :
    solve_image w [] ct q = (.error (.http ⟨400, "Empty image upload"⟩), 0) := rfl

/-- C6: when neither credential variable holds a non-empty value, both
handlers raise HTTP 500 with detail "GEMINI_API_KEY not configured on
server" and make zero outbound calls. -/
theorem C6_credential_absent (w : World) (body : TextRequest) (data : List Nat)
    (ct q : Option String)
    (h1 : w.env "GEMINI_API_KEY" = none ∨ w.env "GEMINI_API_KEY" = some "")
    (h2 : w.env "GOOGLE_API_KEY" = none ∨ w.env "GOOGLE_API_KEY" = some "")
    (hd : data ≠ []) :
    solve_text w body = (.error (.http ⟨500, "GEMINI_API_KEY not configured on server"⟩), 0) ∧
    solve_image w data ct q =
      (.error (.http ⟨500, "GEMINI_API_KEY not configured on server"⟩), 0) := by
  have hkey := gemini_api_key_absent w.env h1 h2
  constructor
  · unfold solve_text _gemini_generate
    simp [hkey]
  · rw [solve_image_delegates w data ct q hd]
    unfold _gemini_generate
    simp [hkey]

/-- C6 witness: the all-absent environment, a text body and a one-byte
image. -/
theorem C6_witness :
    solve_text ⟨fun _ => none, .ok ⟨200, ""⟩⟩ ⟨"1+1", none⟩ =
      (.error (.http ⟨500, "GEMINI_API_KEY not configured on server"⟩), 0) ∧
    solve_image ⟨fun _ => none, .ok ⟨200, ""⟩⟩ [1] none none =
      (.error (.http ⟨500, "GEMINI_API_KEY not configured on server"⟩), 0) :=
  C6_credential_absent ⟨fun _ => none, .ok ⟨200, ""⟩⟩ ⟨"1+1", none⟩ [1] none none
    (Or.inl rfl) (Or.inl rfl) (by decide)

/-- C8: credential resolution takes the first non-empty value among
GEMINI_API_KEY then GOOGLE_API_KEY; in particular a set-but-empty
GEMINI_API_KEY falls through to a non-empty GOOGLE_API_KEY. -/
theorem C8_key_preference (env : String → Option String) :
    (∀ g, env "GEMINI_API_KEY" = some g → g ≠ "" → _gemini_api_key env = .ok g) ∧
    ((env "GEMINI_API_KEY" = none ∨ env "GEMINI_API_KEY" = some "") →
      ∀ g2, env "GOOGLE_API_KEY" = some g2 → g2 ≠ "" → _gemini_api_key env = .ok g2) := by
  constructor
  · intro g hg hne
    unfold _gemini_api_key pyOrOpt
    simp [hg, hne]
  · intro h1 g2 hg2 hne
    unfold _gemini_api_key pyOrOpt
    rcases h1 with h1 | h1 <;> simp [h1, hg2, hne]

/-- C8 witness: GEMINI_API_KEY set to the empty string, GOOGLE_API_KEY
non-empty, so the GOOGLE_API_KEY value is used. -/
theorem C8_witness :
    _gemini_api_key
      (fun n => if n = "GEMINI_API_KEY" then some ""
        else if n = "GOOGLE_API_KEY" then some "gkey" else none) = .ok "gkey" :=
  (C8_key_preference _).2 (Or.inr rfl) "gkey" rfl (by decide)

/-- C9 counterexample: an inbound text request in a credential-absent
environment triggers zero outbound provider calls, not exactly one. -/
theorem C9_counterexample :
    (solve_text ⟨fun _ => none, .ok ⟨200, ""⟩⟩ ⟨"1+1", none⟩).2 = 0 := rfl

/-- C9 (amended): every inbound solve request triggers at most one outbound
provider call — exactly one whenever the credential resolves (and, for the
image handler, the payload is non-empty); there is no retry, second call or
caching on any path. -/
theorem C9_at_most_one_call (w : World) (body : TextRequest) (data : List Nat)
    (ct q : Option String) :
    ((solve_text w body).2 ≤ 1 ∧ (solve_image w data ct q).2 ≤ 1) ∧
    (∀ k, _gemini_api_key w.env = .ok k →
      (solve_text w body).2 = 1 ∧ (data ≠ [] → (solve_image w data ct q).2 = 1)) := by
  have hgen : ∀ contents, (_gemini_generate w contents).2 =
      (match _gemini_api_key w.env with
       | .ok _ => 1
       | .error _ => 0) := fun contents => gemini_generate_calls w contents
  constructor
  · constructor
    · rw [solve_text_calls, hgen]
      cases _gemini_api_key w.env <;> simp
    · by_cases hd : data = []
      · subst hd
        rw [C5_empty_image]
        simp
      · rw [solve_image_calls w data ct q hd, hgen]
        cases _gemini_api_key w.env <;> simp
  · intro k hk
    constructor
    · rw [solve_text_calls, hgen, hk]
    · intro hd
      rw [solve_image_calls w data ct q hd, hgen, hk]

/-- C9 witness: with a resolved credential, one text request and one image
request each make exactly one outbound call. -/
theorem C9_witness :
    (solve_text ⟨fun n => if n = "GEMINI_API_KEY" then some "k" else none,
      .ok ⟨200, ""⟩⟩ ⟨"1+1", none⟩).2 = 1 ∧
    (solve_image ⟨fun n => if n = "GEMINI_API_KEY" then some "k" else none,
      .ok ⟨200, ""⟩⟩ [1] none none).2 = 1 := by
  have h := (C9_at_most_one_call
    ⟨fun n => if n = "GEMINI_API_KEY" then some "k" else none, .ok ⟨200, ""⟩⟩
    ⟨"1+1", none⟩ [1] none none).2 "k" rfl
  exact ⟨h.1, h.2 (by decide)⟩

/-- C10: a missing or empty declared content type does not make the image
handler fail — the handler still delegates to the provider routine — and the
inline attachment's media type is defaulted to "image/png". -/
theorem C10_content_type_default (w : World) (data : List Nat) (ct q : Option String)
    (hct : ct = none ∨ ct = some "") (hd : data ≠ []) :
    solve_image_contents data ct q =
      [⟨"user",
        [MsgPart.text imageInstruction, MsgPart.inline_data "image/png" (b64encode data)] ++
          (match q with
           | some s => if s ≠ "" then [MsgPart.text "Additional context:", MsgPart.text s]
             else []
           | none => [])⟩] ∧
    solve_image w data ct q =
      (match _gemini_generate w (solve_image_contents data ct q) with
       | (.ok answer, n) => (.ok (Json.obj [("answer", answer)]), n)
       | (.error e, n) => (.error e, n)) := by
  constructor
  · unfold solve_image_contents pyOrOptStr
    rcases hct with h | h <;> simp [h]
  · exact solve_image_delegates w data ct q hd

/-- C10 witness: one byte, no declared content type, no query. -/
theorem C10_witness :
    solve_image_contents [1] none none =
      [⟨"user", [MsgPart.text imageInstruction,
        MsgPart.inline_data "image/png" "AQ=="]⟩] :=
  (C10_content_type_default ⟨fun _ => none, .ok ⟨200, ""⟩⟩ [1] none none
    (Or.inl rfl) (by decide)).1

/-- C7 counterexample: the claim restricts `UpstreamError` to non-2xx
statuses, but the source tests `status_code != 200`, so a 2xx status such as
201 also raises it. -/
theorem C7_counterexample :
    (_gemini_generate ⟨fun n => if n = "GEMINI_API_KEY" then some "k" else none,
      .ok ⟨201, "created"⟩⟩ []).1 =
      .error (.http ⟨201, "Gemini API error: created"⟩) := rfl

/-- C7 (amended): with a resolved key and a delivered response, the provider
routine raises the upstream `HTTPException` exactly when the status differs
from 200, carrying the provider's status and "Gemini API error: " plus the
first 500 characters of the raw body; on status 200 it never raises an
`HTTPException`. -/
theorem C7_upstream_error (w : World) (contents : List Content) (k : String)
    (r : HttpResponse)
    (hk : _gemini_api_key w.env = .ok k) (hp : w.post = .ok r) :
    (r.status_code ≠ 200 →
      (_gemini_generate w contents).1 =
        .error (.http ⟨r.status_code, "Gemini API error: " ++ pyStrSlice r.text 500⟩)) ∧
    (r.status_code = 200 →
      ∀ e : HTTPException, (_gemini_generate w contents).1 ≠ .error (.http e)) := by
  unfold _gemini_generate
  simp only [hk, hp]
  constructor
  · intro hne
    simp [hne]
  · intro h200 e
    simp only [h200]
    cases hj : pyJsonLoads r.text <;> simp [hj]

/-- C7 witness: a mocked 429 response with body "rate limited" fails with
status 429 and message "Gemini API error: rate limited". -/
theorem C7_witness :
    (_gemini_generate ⟨fun n => if n = "GEMINI_API_KEY" then some "k" else none,
      .ok ⟨429, "rate limited"⟩⟩ []).1 =
      .error (.http ⟨429, "Gemini API error: rate limited"⟩) :=
  (C7_upstream_error
    ⟨fun n => if n = "GEMINI_API_KEY" then some "k" else none, .ok ⟨429, "rate limited"⟩⟩
    [] "k" ⟨429, "rate limited"⟩ rfl rfl).1 (by decide)

/-- C2 counterexample: a 200 response whose body is not valid JSON makes the
routine raise (the uncaught deserialization error), rather than return a
best-effort string — `resp.json()` on line 48 sits outside the `try`
block. -/
theorem C2_counterexample :
    (_gemini_generate ⟨fun n => if n = "GEMINI_API_KEY" then some "k" else none,
      .ok ⟨200, "rate limited"⟩⟩ []).1 = .error PyError.jsonDecode := rfl

/-- C2 (amended): for every 200 provider response whose body is valid JSON,
the routine returns a value and never raises; whenever the extraction of the
candidates shape raises internally, the returned value is the literal
"Unable to parse model response. Raw: " followed by the first 500 characters
of the stringified deserialized body. -/
theorem C2_best_effort (w : World) (contents : List Content) (k : String)
    (r : HttpResponse) (data : Json)
    (hk : _gemini_api_key w.env = .ok k) (hp : w.post = .ok r)
    (hs : r.status_code = 200) (hj : pyJsonLoads r.text = .ok data) :
    (∃ v, (_gemini_generate w contents).1 = .ok v) ∧
    (geminiTryExtract data = .error () →
      (_gemini_generate w contents).1 =
        .ok (.str ("Unable to parse model response. Raw: " ++ pyStrSlice (pyStr data) 500))) := by
  have h := gemini_generate_ok w contents k r data hk hp hs hj
  refine ⟨⟨geminiExtract data, by rw [h]⟩, ?_⟩
  intro htry
  rw [h]
  unfold geminiExtract
  rw [htry]

/-- C2 witness: the malformed-but-JSON body from the spec's test, an empty
object, degrades to the literal fallback string. -/
theorem C2_witness :
    (_gemini_generate ⟨fun n => if n = "GEMINI_API_KEY" then some "k" else none,
      .ok ⟨200, "\x7b\x7d"⟩⟩ []).1 =
      .ok (.str "Unable to parse model response. Raw: \x7b\x7d") :=
  (C2_best_effort
    ⟨fun n => if n = "GEMINI_API_KEY" then some "k" else none, .ok ⟨200, "\x7b\x7d"⟩⟩
    [] "k" ⟨200, "\x7b\x7d"⟩ (Json.obj []) rfl rfl rfl rfl).2 rfl

/-- C1: for every 200 provider response whose JSON body carries
`candidates[0].content.parts` with string text fields (and a string or
absent top-level `text`), the routine returns exactly the spec's extraction:
the non-empty part texts joined by newlines, else the top-level `text`
field, else the literal "No response text returned from model." — first
non-empty winner. -/
theorem C1_extraction (w : World) (contents : List Content) (k : String)
    (r : HttpResponse) (kvs c0kvs ckvs : List (String × Json)) (cs ps : List Json)
    (hk : _gemini_api_key w.env = .ok k)
    (hp : w.post = .ok r)
    (hs : r.status_code = 200)
    (hj : pyJsonLoads r.text = .ok (.obj kvs))
    (hc : kvs.lookup "candidates" = some (.arr (.obj c0kvs :: cs)))
    (hcon : c0kvs.lookup "content" = some (.obj ckvs))
    (hparts : ckvs.lookup "parts" = some (.arr ps))
    (hps : partsTextOK ps = true)
    (htop : topTextOK kvs = true) :
    (_gemini_generate w contents).1 = .ok (.str (specExtract kvs ps)) := by
  have hgen := gemini_generate_ok w contents k r (.obj kvs) hk hp hs hj
  rw [hgen]
  have h1 : pyGet (Json.obj kvs) "candidates" = .ok (Json.arr (Json.obj c0kvs :: cs)) := by
    simp [pyGet, hc]
  have h2 : pyGetD (Json.obj c0kvs) "content" (Json.obj []) = .ok (Json.obj ckvs) := by
    simp [pyGetD, hcon]
  have h3 : pyGetD (Json.obj ckvs) "parts" (Json.arr []) = .ok (Json.arr ps) := by
    simp [pyGetD, hparts]
  have htry : geminiTryExtract (Json.obj kvs) = .ok (.str (specExtract kvs ps)) := by
    unfold geminiTryExtract
    rw [h1]
    simp only [except_bind_ok, except_pure, Json.truthy, List.isEmpty_cons, Bool.not_false,
      if_true, pyIndex0, h2, h3, pyIter, textsComprehension_ok ps hps, filter_truthy_map_str,
      pyJoinNL_map_str]
    set J := String.intercalate "\n" ((collectTexts ps).filter (fun s => s != "")) with hJdef
    unfold specExtract
    rw [← hJdef]
    by_cases hJ : J = ""
    · rw [hJ]
      simp only [except_bind_ok, except_pure, Json.truthy, bne_self_eq_false,
        Bool.false_eq_true, if_false, pyGet]
      cases hl : kvs.lookup "text" with
      | none =>
        simp [topText, hl]
      | some v =>
        have htop2 := htop
        unfold topTextOK at htop2
        rw [hl] at htop2
        cases v with
        | str s =>
          simp only [hl, Option.getD_some, except_bind_ok, except_pure, Json.truthy]
          by_cases hsne : s = ""
          · simp [hsne, topText, hl]
          · have hb : (s != "") = true := by simpa using hsne
            simp [hb, topText, hl]
        | null => simp at htop2
        | bool b => simp at htop2
        | num n => simp at htop2
        | arr xs => simp at htop2
        | obj kvs2 => simp at htop2
    · have hb : (J != "") = true := by simpa using hJ
      simp [hb, except_bind_ok, except_pure, Json.truthy]
  unfold geminiExtract
  rw [htry]

/-- C1 witness: the spec's mocked response with two text parts "a" and "b"
extracts to "a\nb". -/
theorem C1_witness :
    (_gemini_generate ⟨fun n => if n = "GEMINI_API_KEY" then some "k" else none,
      .ok ⟨200, "\x7b\"candidates\":[\x7b\"content\":\x7b\"parts\":[\x7b\"text\":\"a\"\x7d,\x7b\"text\":\"b\"\x7d]\x7d\x7d]\x7d"⟩⟩ []).1 =
      .ok (.str "a\nb") :=
  C1_extraction
    ⟨fun n => if n = "GEMINI_API_KEY" then some "k" else none,
      .ok ⟨200, "\x7b\"candidates\":[\x7b\"content\":\x7b\"parts\":[\x7b\"text\":\"a\"\x7d,\x7b\"text\":\"b\"\x7d]\x7d\x7d]\x7d"⟩⟩
    [] "k"
    ⟨200, "\x7b\"candidates\":[\x7b\"content\":\x7b\"parts\":[\x7b\"text\":\"a\"\x7d,\x7b\"text\":\"b\"\x7d]\x7d\x7d]\x7d"⟩
    [("candidates",
      .arr [.obj [("content",
        .obj [("parts", .arr [.obj [("text", .str "a")], .obj [("text", .str "b")]])])]])]
    [("content",
      .obj [("parts", .arr [.obj [("text", .str "a")], .obj [("text", .str "b")]])])]
    [("parts", .arr [.obj [("text", .str "a")], .obj [("text", .str "b")]])]
    []
    [.obj [("text", .str "a")], .obj [("text", .str "b")]]
    rfl rfl rfl rfl rfl rfl rfl rfl rfl
